import Mathlib

/-!
Verification of the Freestyle `AdvancedFunctions0D` point-query functors
(`source/blender/freestyle/intern/stroke/AdvancedFunctions0D.h`).

The header declares six functors (DensityF0D, LocalAverageDepthF0D,
ReadMapPixelF0D, ReadSteerableViewMapPixelF0D, ReadCompleteViewMapPixelF0D,
GetViewMapGradientNormF0D) whose constructors and `getName` methods are in
the header itself; the `operator()` bodies and the `GaussianFilter`
implementation live in companion translation units that are not part of this
fragment, so those operations are modelled from the specification, each
marked `Modelled from the spec:` in its doc comment.

Real-valued image data is embedded as functions into `ℝ`; pyramid levels are
lists of rasters; machine integer coordinates are `Nat`/`ℤ`.
-/

/-- The Gaussian filter configuration: a spread `sigma` and the derived
half-window radius `bound` (`GaussianFilter` in `GaussianFilter.h`). -/
structure GaussianFilter where
  sigma : ℝ
  bound : ℤ

/-- Modelled from the spec: `GaussianFilter::setSigma` (implementation not in
this fragment) stores `sigma` and derives the half-window radius `bound`
proportional to sigma; the spec offers `bound = ceil(2*sigma)` as the rule,
chosen so that the kernel decays to near-zero at the window boundary. -/
noncomputable def GaussianFilter.setSigma (sigma : ℝ) : GaussianFilter :=
  { sigma := sigma, bound := Int.ceil (2 * sigma) }

/-- Modelled from the spec: the unnormalized Gaussian kernel weight at integer
offset `(i, j)` from the window center is `exp(-(d^2)/(2*sigma^2))` where
`d^2 = i^2 + j^2`. -/
noncomputable def gaussWeight (sigma : ℝ) (i j : ℤ) : ℝ :=
  Real.exp (-(((i : ℝ) ^ 2 + (j : ℝ) ^ 2)) / (2 * sigma ^ 2))

/-- The square window of integer offsets `[-b, b] × [-b, b]` over which the
Gaussian filter integrates. -/
def kernelWindow (b : ℤ) : Finset (ℤ × ℤ) :=
  Finset.Icc (-b) b ×ˢ Finset.Icc (-b) b

/-- The total unnormalized kernel mass over the window of radius `b`. -/
noncomputable def rawKernelSum (sigma : ℝ) (b : ℤ) : ℝ :=
  ∑ p ∈ kernelWindow b, gaussWeight sigma p.1 p.2

/-- Modelled from the spec: the normalized kernel weight, i.e. the raw
Gaussian weight divided by the total window mass, so that the weights sum
to 1 over the finite window. -/
noncomputable def kernelWeight (sigma : ℝ) (b : ℤ) (i j : ℤ) : ℝ :=
  gaussWeight sigma i j / rawKernelSum sigma b

lemma gaussWeight_pos (sigma : ℝ) (i j : ℤ) : 0 < gaussWeight sigma i j :=
  Real.exp_pos _

lemma kernelWindow_nonempty {b : ℤ} (hb : 0 ≤ b) : (kernelWindow b).Nonempty :=
  ⟨(0, 0), by
    simp only [kernelWindow, Finset.mem_product, Finset.mem_Icc]
    omega⟩

lemma rawKernelSum_pos (sigma : ℝ) {b : ℤ} (hb : 0 ≤ b) :
    0 < rawKernelSum sigma b :=
  Finset.sum_pos (fun p _ => gaussWeight_pos sigma p.1 p.2) (kernelWindow_nonempty hb)

/-- Shared helper: over any nonempty window, the normalized kernel weights
sum to exactly 1. -/
lemma kernelWeight_sum_one (sigma : ℝ) {b : ℤ} (hb : 0 ≤ b) :
    ∑ p ∈ kernelWindow b, kernelWeight sigma b p.1 p.2 = 1 := by
  unfold kernelWeight
  rw [← Finset.sum_div]
  exact div_self (ne_of_gt (rawKernelSum_pos sigma hb))

lemma setSigma_bound_nonneg {sigma : ℝ} (h : 0 < sigma) :
    0 ≤ (GaussianFilter.setSigma sigma).bound := by
  simp only [GaussianFilter.setSigma]
  exact le_of_lt (Int.ceil_pos.mpr (by linarith))

lemma kernelWindow_card (b : ℤ) :
    (kernelWindow b).card = ((2 * b + 1).toNat) ^ 2 := by
  simp only [kernelWindow, Finset.card_product, Int.card_Icc]
  have : b + 1 - -b = 2 * b + 1 := by ring
  rw [this, sq]

/-- C1: For every sigma > 0, the Gaussian kernel built by
`GaussianFilter.setSigma(sigma)`, whose weight at integer offset `d` from
center is `exp(-(d^2)/(2*sigma^2))` normalized over the finite window, has
weights that sum to exactly 1 (hence within any numerical tolerance) over
the `(2*bound+1)^2` window. -/
theorem gaussian_kernel_weights_sum_to_one (sigma : ℝ) (h : 0 < sigma) :
    (∑ p ∈ kernelWindow (GaussianFilter.setSigma sigma).bound,
        kernelWeight (GaussianFilter.setSigma sigma).sigma
          (GaussianFilter.setSigma sigma).bound p.1 p.2 = 1) ∧
    (kernelWindow (GaussianFilter.setSigma sigma).bound).card =
      ((2 * (GaussianFilter.setSigma sigma).bound + 1).toNat) ^ 2 := by
  refine ⟨?_, kernelWindow_card _⟩
  exact kernelWeight_sum_one _ (setSigma_bound_nonneg h)

/-- Witness for C1 at the concrete sigma = 1. -/
theorem gaussian_kernel_weights_sum_to_one_witness :
    (0 : ℝ) < 1 ∧
    ((∑ p ∈ kernelWindow (GaussianFilter.setSigma 1).bound,
        kernelWeight (GaussianFilter.setSigma 1).sigma
          (GaussianFilter.setSigma 1).bound p.1 p.2 = 1) ∧
    (kernelWindow (GaussianFilter.setSigma 1).bound).card =
      ((2 * (GaussianFilter.setSigma 1).bound + 1).toNat) ^ 2) :=
  ⟨one_pos, gaussian_kernel_weights_sum_to_one 1 one_pos⟩

/-- C6: the window radius derived by `setSigma` is monotone in sigma, and
doubling a (positive) sigma does not shrink the bound. -/
theorem bound_monotone_in_sigma (s1 s2 s : ℝ) (h12 : s1 ≤ s2) (hs : 0 < s) :
    (GaussianFilter.setSigma s1).bound ≤ (GaussianFilter.setSigma s2).bound ∧
    (GaussianFilter.setSigma s).bound ≤ (GaussianFilter.setSigma (2 * s)).bound := by
  constructor
  · exact Int.ceil_le_ceil (by linarith)
  · exact Int.ceil_le_ceil (by linarith)

/-- Witness for C6 at sigmas 1 ≤ 2 and s = 1. -/
theorem bound_monotone_in_sigma_witness :
    (1 : ℝ) ≤ 2 ∧ (0 : ℝ) < 1 ∧
    ((GaussianFilter.setSigma 1).bound ≤ (GaussianFilter.setSigma 2).bound ∧
     (GaussianFilter.setSigma 1).bound ≤ (GaussianFilter.setSigma (2 * 1)).bound) :=
  ⟨by norm_num, one_pos, bound_monotone_in_sigma 1 2 1 (by norm_num) one_pos⟩

/-- Replicate-edge clamping of an integer coordinate into a raster of `n`
pixels: coordinates below 0 read pixel 0, coordinates at or beyond `n`
read pixel `n - 1`. -/
def clampCoord (n : Nat) (i : ℤ) : Nat :=
  (min (max i 0) ((n : ℤ) - 1)).toNat

/-- Modelled from the spec: sampling an image under the replicate-edge
boundary policy — window taps outside the raster are clamped to the nearest
valid pixel before the read. -/
def clampedSample (img : Nat → Nat → ℝ) (w h : Nat) (x y : ℤ) : ℝ :=
  img (clampCoord w x) (clampCoord h y)

/-- Modelled from the spec: `GaussianFilter::compute` — the Gaussian-weighted
sum of the `(2*bound+1)^2` window of samples centered at `(x, y)`, using the
normalized kernel weights. -/
noncomputable def gaussianCompute (f : GaussianFilter) (sample : ℤ → ℤ → ℝ)
    (x y : ℤ) : ℝ :=
  ∑ p ∈ kernelWindow f.bound,
    kernelWeight f.sigma f.bound p.1 p.2 * sample (x + p.1) (y + p.2)

/-- `DensityF0D`: holds its Gaussian filter, configured at construction. -/
structure DensityF0D where
  filter : GaussianFilter

/-- The `DensityF0D(double sigma = 2)` constructor: calls
`_filter.setSigma(sigma)`. -/
noncomputable def mkDensityF0D (sigma : ℝ := 2) : DensityF0D :=
  { filter := GaussianFilter.setSigma sigma }

/-- Modelled from the spec: `DensityF0D::operator()` (body not in this
fragment) gathers the window of density-image samples around the point,
clamped at the image edges, and returns the Gaussian-weighted sum. -/
noncomputable def DensityF0D.evalAt (f : DensityF0D) (img : Nat → Nat → ℝ)
    (w h : Nat) (x y : ℤ) : ℝ :=
  gaussianCompute f.filter (clampedSample img w h) x y

/-- `LocalAverageDepthF0D`: holds its Gaussian filter, configured at
construction. -/
structure LocalAverageDepthF0D where
  filter : GaussianFilter

/-- The `LocalAverageDepthF0D(real maskSize = 5.0)` constructor: calls
`_filter.setSigma(maskSize / 2)`. -/
noncomputable def mkLocalAverageDepthF0D (maskSize : ℝ := 5) : LocalAverageDepthF0D :=
  { filter := GaussianFilter.setSigma (maskSize / 2) }

/-- Modelled from the spec: `LocalAverageDepthF0D::operator()` (body not in
this fragment) — structurally identical to `DensityF0D::operator()` but
sourced from the depth buffer. -/
noncomputable def LocalAverageDepthF0D.evalAt (f : LocalAverageDepthF0D)
    (depth : Nat → Nat → ℝ) (w h : Nat) (x y : ℤ) : ℝ :=
  gaussianCompute f.filter (clampedSample depth w h) x y

/-- Shared helper: the Gaussian-weighted sum of a constant sample field is
that constant, for any filter with a nonnegative bound. -/
lemma gaussianCompute_const (f : GaussianFilter) (hb : 0 ≤ f.bound) (c : ℝ)
    (x y : ℤ) : gaussianCompute f (fun _ _ => c) x y = c := by
  unfold gaussianCompute
  have : ∀ p ∈ kernelWindow f.bound,
      kernelWeight f.sigma f.bound p.1 p.2 * c =
        c * kernelWeight f.sigma f.bound p.1 p.2 := by
    intro p _
    ring
  rw [Finset.sum_congr rfl this, ← Finset.mul_sum, kernelWeight_sum_one f.sigma hb,
    mul_one]

/-- C4: evaluating `DensityF0D` (any sigma > 0) on a constant density image,
or `LocalAverageDepthF0D` (any maskSize > 0) on a constant depth buffer,
returns exactly that constant, at every point — including points whose
window overlaps the boundary, where the replicate-edge clamp applies. -/
theorem constant_field_smoothing_identity (sigma maskSize c : ℝ)
    (hs : 0 < sigma) (hm : 0 < maskSize) (w h : Nat) (x y : ℤ) :
    (mkDensityF0D sigma).evalAt (fun _ _ => c) w h x y = c ∧
    (mkLocalAverageDepthF0D maskSize).evalAt (fun _ _ => c) w h x y = c := by
  have hclamp : ∀ (w h : Nat), clampedSample (fun _ _ => c) w h = fun _ _ => c := by
    intro w h
    funext i j
    rfl
  constructor
  · rw [DensityF0D.evalAt, hclamp]
    exact gaussianCompute_const _ (setSigma_bound_nonneg hs) c x y
  · rw [LocalAverageDepthF0D.evalAt, hclamp]
    exact gaussianCompute_const _ (setSigma_bound_nonneg (by linarith)) c x y

/-- Witness for C4 at sigma = 2, maskSize = 5, constant 7, a 4×4 image and
the boundary-overlapping point (0, 0). -/
theorem constant_field_smoothing_identity_witness :
    (0 : ℝ) < 2 ∧ (0 : ℝ) < 5 ∧
    ((mkDensityF0D 2).evalAt (fun _ _ => (7 : ℝ)) 4 4 0 0 = 7 ∧
     (mkLocalAverageDepthF0D 5).evalAt (fun _ _ => (7 : ℝ)) 4 4 0 0 = 7) :=
  ⟨by norm_num, by norm_num,
    constant_field_smoothing_identity 2 5 7 (by norm_num) (by norm_num) 4 4 0 0⟩

/-- C7: `LocalAverageDepthF0D` with mask size `m` configures its filter with
sigma = m/2 (default mask size 5, so default sigma 5/2); `DensityF0D`
configures its filter with the given sigma (default 2). -/
theorem functor_filter_configuration (m s : ℝ) :
    (mkLocalAverageDepthF0D m).filter.sigma = m / 2 ∧
    (mkLocalAverageDepthF0D).filter.sigma = 5 / 2 ∧
    (mkDensityF0D s).filter.sigma = s ∧
    (mkDensityF0D).filter.sigma = 2 :=
  ⟨rfl, rfl, rfl, rfl⟩

/-- A pyramid: the list of per-level rasters, level 0 first; each raster is a
pixel function. Level `L` covers the level-0 extent at `1/2^L` resolution. -/
abbrev Pyramid : Type := List (Nat → Nat → ℝ)

/-- The failures of the map store: an unknown map name, an orientation index
with no pyramid, or a level beyond the pyramid's depth. -/
inductive LookupError where
  | mapNotFound (name : String)
  | orientationOutOfRange (o : Nat)
  | levelOutOfRange (level : Nat)
deriving DecidableEq

/-- Modelled from the spec: reading a pyramid pixel at a given level — the
level-0 query coordinate is converted to that level's resolution by shifting
right by `level` (truncating division by `2^level`), then the level's raster
is read; a level beyond the pyramid's depth is a lookup failure. -/
def readPyramidPixel (pyr : Pyramid) (level x y : Nat) : Except LookupError ℝ :=
  match pyr[level]? with
  | none => .error (.levelOutOfRange level)
  | some img => .ok (img (x >>> level) (y >>> level))

/-- The named-map store: an association list from map names to pyramids. -/
abbrev MapStore : Type := List (String × Pyramid)

/-- Modelled from the spec: `readPixel(mapId, level, x, y)` of the external
map store, keyed by string name — an unknown name is a fatal lookup failure
for that query. -/
def readMapPixel (store : MapStore) (name : String) (level x y : Nat) :
    Except LookupError ℝ :=
  match List.find? (fun p => p.1 == name) store with
  | none => .error (.mapNotFound name)
  | some p => readPyramidPixel p.2 level x y

/-- The steerable view-map store: the list of orientation pyramids, indexed
by the orientation (E = 0, NE = 1, N = 2, NW = 3). -/
abbrev SteerableStore : Type := List Pyramid

/-- Modelled from the spec: reading a steerable view-map pixel — the
orientation index selects that orientation's own pyramid; an index with no
pyramid is a lookup failure at query time. -/
def readSteerableViewMapPixel (svm : SteerableStore) (o level x y : Nat) :
    Except LookupError ℝ :=
  match svm[o]? with
  | none => .error (.orientationOutOfRange o)
  | some pyr => readPyramidPixel pyr level x y

/-- Modelled from the spec: reading a pixel of the single combined view-map
pyramid. -/
def readCompleteViewMapPixel (cvm : Pyramid) (level x y : Nat) :
    Except LookupError ℝ :=
  readPyramidPixel cvm level x y

/-- `ReadMapPixelF0D`: stores the map name and level given at construction. -/
structure ReadMapPixelF0D where
  mapName : String
  level : Nat

/-- The `ReadMapPixelF0D(iMapName, level)` constructor: stores both
parameters. -/
def mkReadMapPixelF0D (iMapName : String) (level : Nat) : ReadMapPixelF0D :=
  { mapName := iMapName, level := level }

/-- Modelled from the spec: `ReadMapPixelF0D::operator()` (body not in this
fragment) delegates the query to the map store's named read at the functor's
level and the point's coordinate, propagating any failure. -/
def ReadMapPixelF0D.evalAt (f : ReadMapPixelF0D) (store : MapStore)
    (x y : Nat) : Except LookupError ℝ :=
  readMapPixel store f.mapName f.level x y

/-- `ReadSteerableViewMapPixelF0D`: stores the orientation and level given at
construction. -/
structure ReadSteerableViewMapPixelF0D where
  orientation : Nat
  level : Nat

/-- The `ReadSteerableViewMapPixelF0D(nOrientation, level)` constructor: it
assigns `_orientation = nOrientation` and `_level = level`, with no
validation of either parameter. -/
def mkReadSteerableViewMapPixelF0D (nOrientation : Nat) (level : Nat) :
    ReadSteerableViewMapPixelF0D :=
  { orientation := nOrientation, level := level }

/-- Modelled from the spec: `ReadSteerableViewMapPixelF0D::operator()` (body
not in this fragment) delegates to the steerable store at the functor's
orientation and level. -/
def ReadSteerableViewMapPixelF0D.evalAt (f : ReadSteerableViewMapPixelF0D)
    (svm : SteerableStore) (x y : Nat) : Except LookupError ℝ :=
  readSteerableViewMapPixel svm f.orientation f.level x y

/-- `ReadCompleteViewMapPixelF0D`: stores the level given at construction. -/
structure ReadCompleteViewMapPixelF0D where
  level : Nat

/-- The `ReadCompleteViewMapPixelF0D(level)` constructor: stores the level. -/
def mkReadCompleteViewMapPixelF0D (level : Nat) : ReadCompleteViewMapPixelF0D :=
  { level := level }

/-- Modelled from the spec: `ReadCompleteViewMapPixelF0D::operator()` (body
not in this fragment) delegates to the combined view-map pyramid at the
functor's level. -/
def ReadCompleteViewMapPixelF0D.evalAt (f : ReadCompleteViewMapPixelF0D)
    (cvm : Pyramid) (x y : Nat) : Except LookupError ℝ :=
  readCompleteViewMapPixel cvm f.level x y

/-- Shared helper: the right-shift used by the pyramid reads is truncating
division by `2^level`. -/
lemma shiftRight_eq_div_pow (x level : Nat) : x >>> level = x / 2 ^ level :=
  Nat.shiftRight_eq_div_pow x level

/-- C2: each of the three pixel-read functors constructed with level `L`
reads the pyramid raster at coordinate `(x >>> L, y >>> L)`, which equals
the level-0 coordinate divided by `2^L` with truncating division. -/
theorem pyramid_coordinate_mapping (L x y : Nat) :
    (∀ (cvm : Pyramid) (img : Nat → Nat → ℝ), cvm[L]? = some img →
      (mkReadCompleteViewMapPixelF0D L).evalAt cvm x y =
        .ok (img (x / 2 ^ L) (y / 2 ^ L))) ∧
    (∀ (svm : SteerableStore) (o : Nat) (pyr : Pyramid) (img : Nat → Nat → ℝ),
      svm[o]? = some pyr → pyr[L]? = some img →
      (mkReadSteerableViewMapPixelF0D o L).evalAt svm x y =
        .ok (img (x / 2 ^ L) (y / 2 ^ L))) ∧
    (∀ (store : MapStore) (n : String) (p : String × Pyramid)
      (img : Nat → Nat → ℝ),
      List.find? (fun q => q.1 == n) store = some p → p.2[L]? = some img →
      (mkReadMapPixelF0D n L).evalAt store x y =
        .ok (img (x / 2 ^ L) (y / 2 ^ L))) := by
  refine ⟨?_, ?_, ?_⟩
  · intro cvm img hget
    simp [ReadCompleteViewMapPixelF0D.evalAt, readCompleteViewMapPixel,
      readPyramidPixel, mkReadCompleteViewMapPixelF0D, hget,
      shiftRight_eq_div_pow]
  · intro svm o pyr img hsvm hget
    simp [ReadSteerableViewMapPixelF0D.evalAt, readSteerableViewMapPixel,
      readPyramidPixel, mkReadSteerableViewMapPixelF0D, hsvm, hget,
      shiftRight_eq_div_pow]
  · intro store n p img hfind hget
    simp [ReadMapPixelF0D.evalAt, readMapPixel, readPyramidPixel,
      mkReadMapPixelF0D, hfind, hget, shiftRight_eq_div_pow]

/-- Witness for C2: a three-level pyramid read at level 2 and point (11, 13)
samples the level-2 raster at (11 / 4, 13 / 4). -/
theorem pyramid_coordinate_mapping_witness :
    (mkReadCompleteViewMapPixelF0D 2).evalAt
      [fun i j => (i : ℝ) + j, fun i j => (i : ℝ) + j,
       fun i j => 10 * (i : ℝ) + j] 11 13 =
      .ok ((fun (i j : Nat) => 10 * (i : ℝ) + j) (11 / 2 ^ 2) (13 / 2 ^ 2)) := by
  exact (pyramid_coordinate_mapping 2 11 13).1
    [fun i j => (i : ℝ) + j, fun i j => (i : ℝ) + j, fun i j => 10 * (i : ℝ) + j]
    (fun i j => 10 * (i : ℝ) + j) rfl

/-- `GetViewMapGradientNormF0D`: stores the level and the derived pixel
stride `step`. -/
structure GetViewMapGradientNormF0D where
  level : Nat
  step : Nat

/-- The `GetViewMapGradientNormF0D(level)` constructor: stores the level and
derives `_step = pow(2.0, _level)`. -/
def mkGetViewMapGradientNormF0D (level : Nat) : GetViewMapGradientNormF0D :=
  { level := level, step := 2 ^ level }

/-- Modelled from the spec: `GetViewMapGradientNormF0D::operator()` (body not
in this fragment) reads the combined view-map density at the point and at
the two taps offset by `step` in x and in y, forms the finite differences,
and returns their Euclidean norm. The combined view-map is supplied as a
total level-indexed raster (the spec's replicate-edge clamp makes every tap
read a valid pixel); each read converts the query coordinate to the level's
resolution by `>>> level` as in the other pyramid reads. -/
noncomputable def GetViewMapGradientNormF0D.evalAt
    (f : GetViewMapGradientNormF0D) (cvm : Nat → Nat → Nat → ℝ)
    (x y : Nat) : ℝ :=
  let pxy := cvm f.level (x >>> f.level) (y >>> f.level)
  let gx := cvm f.level ((x + f.step) >>> f.level) (y >>> f.level) - pxy
  let gy := cvm f.level (x >>> f.level) ((y + f.step) >>> f.level) - pxy
  Real.sqrt (gx ^ 2 + gy ^ 2)

lemma add_pow_shiftRight (x L : Nat) : (x + 2 ^ L) >>> L = x >>> L + 1 := by
  rw [shiftRight_eq_div_pow, shiftRight_eq_div_pow,
    Nat.add_div_right x (pow_pos (by norm_num) L)]

/-- C3: the functor built at level `L` derives `step = 2^L`; on a density
field that increases linearly in the level's pixel grid with slopes
`(a, b)`, it returns `sqrt(a^2 + b^2)`, the same value at every level (the
stride moves exactly one pixel at that level); and the returned gradient
magnitude is always non-negative. -/
theorem gradient_norm_on_linear_field (L x y : Nat) (a b : ℝ)
    (D : Nat → Nat → Nat → ℝ) (hD : ∀ i j : Nat, D L i j = a * i + b * j) :
    (mkGetViewMapGradientNormF0D L).step = 2 ^ L ∧
    (mkGetViewMapGradientNormF0D L).evalAt D x y = Real.sqrt (a ^ 2 + b ^ 2) ∧
    (∀ (f : GetViewMapGradientNormF0D) (E : Nat → Nat → Nat → ℝ) (u v : Nat),
      0 ≤ f.evalAt E u v) := by
  refine ⟨rfl, ?_, fun f E u v => Real.sqrt_nonneg _⟩
  simp only [GetViewMapGradientNormF0D.evalAt, mkGetViewMapGradientNormF0D,
    add_pow_shiftRight, hD]
  congr 1
  push_cast
  ring

/-- Witness for C3 at level 1, point (3, 5), slopes (1, 2). -/
theorem gradient_norm_on_linear_field_witness :
    (∀ i j : Nat, (fun (_ i j : Nat) => 1 * (i : ℝ) + 2 * j) 1 i j =
      1 * (i : ℝ) + 2 * j) ∧
    ((mkGetViewMapGradientNormF0D 1).step = 2 ^ 1 ∧
     (mkGetViewMapGradientNormF0D 1).evalAt
        (fun _ i j => 1 * (i : ℝ) + 2 * j) 3 5 = Real.sqrt (1 ^ 2 + 2 ^ 2) ∧
     (∀ (f : GetViewMapGradientNormF0D) (E : Nat → Nat → Nat → ℝ) (u v : Nat),
       0 ≤ f.evalAt E u v)) :=
  ⟨fun _ _ => rfl,
    gradient_norm_on_linear_field 1 3 5 1 2 _ (fun _ _ => rfl)⟩

/-- C8: when the map store cannot satisfy a `ReadMapPixelF0D` query — the
name is absent, or the level is beyond the found pyramid's depth — the
store's error is the query's result, propagated unchanged, with no fallback
value; and every successful result is exactly the store's. -/
theorem lookup_failure_propagated (f : ReadMapPixelF0D) (store : MapStore)
    (x y : Nat) :
    (∀ e, readMapPixel store f.mapName f.level x y = .error e →
      f.evalAt store x y = .error e) ∧
    ((∀ p ∈ store, p.1 ≠ f.mapName) →
      f.evalAt store x y = .error (.mapNotFound f.mapName)) ∧
    (∀ p : String × Pyramid,
      List.find? (fun q => q.1 == f.mapName) store = some p →
      p.2.length ≤ f.level →
      f.evalAt store x y = .error (.levelOutOfRange f.level)) ∧
    (∀ v, f.evalAt store x y = .ok v →
      readMapPixel store f.mapName f.level x y = .ok v) := by
  refine ⟨fun e h => h, ?_, ?_, fun v h => h⟩
  · intro h
    have hfind : List.find? (fun q => q.1 == f.mapName) store = none := by
      rw [List.find?_eq_none]
      intro q hq
      simpa using h q hq
    simp [ReadMapPixelF0D.evalAt, readMapPixel, hfind]
  · intro p hfind hlen
    have hget : p.2[f.level]? = none := by
      rw [List.getElem?_eq_none_iff]
      exact hlen
    simp [ReadMapPixelF0D.evalAt, readMapPixel, readPyramidPixel, hfind, hget]

/-- Witness for C8: a query against an empty store fails with the
map-not-found error for the requested name. -/
theorem lookup_failure_propagated_witness :
    (mkReadMapPixelF0D "density" 0).evalAt [] 3 4 =
      .error (.mapNotFound (mkReadMapPixelF0D "density" 0).mapName) :=
  (lookup_failure_propagated (mkReadMapPixelF0D "density" 0) [] 3 4).2.1
    (by simp)

/-- A synthetic steerable fixture: four single-level pyramids, the pyramid
of orientation `o` tagged everywhere with the value `o`. -/
def fixtureSVM : SteerableStore :=
  [[fun _ _ => ((0 : Nat) : ℝ)], [fun _ _ => ((1 : Nat) : ℝ)],
   [fun _ _ => ((2 : Nat) : ℝ)], [fun _ _ => ((3 : Nat) : ℝ)]]

lemma fixtureSVM_evalAt {o : Nat} (ho : o < 4) (x y : Nat) :
    (mkReadSteerableViewMapPixelF0D o 0).evalAt fixtureSVM x y =
      .ok ((o : Nat) : ℝ) := by
  interval_cases o <;> rfl

/-- C5 counterexample: constructing `ReadSteerableViewMapPixelF0D` with the
out-of-range orientation 4 does not fail — the constructor stores the value
unvalidated, and the failure surfaces only when the query is evaluated
against the steerable store. -/
theorem steerable_orientation_not_validated_eagerly :
    (mkReadSteerableViewMapPixelF0D 4 0).orientation = 4 ∧
    ¬ (mkReadSteerableViewMapPixelF0D 4 0).orientation < 4 ∧
    (mkReadSteerableViewMapPixelF0D 4 0).evalAt fixtureSVM 0 0 =
      .error (.orientationOutOfRange 4) :=
  ⟨rfl, by decide, rfl⟩

/-- C5 (amended): the constructor accepts and stores any orientation with no
validation, so an out-of-range index is a query-time lookup failure, not a
construction-time one; each of the four valid orientations reads its own
pyramid — on the uniquely tagged fixture, orientation `o` returns tag `o`,
and distinct valid orientations never return the same result. -/
theorem steerable_orientation_amended (o level x y : Nat) (ho : o < 4) :
    (mkReadSteerableViewMapPixelF0D o level).orientation = o ∧
    (mkReadSteerableViewMapPixelF0D o level).level = level ∧
    (mkReadSteerableViewMapPixelF0D o 0).evalAt fixtureSVM x y =
      .ok ((o : Nat) : ℝ) ∧
    (∀ o1 o2 : Nat, o1 < 4 → o2 < 4 → o1 ≠ o2 →
      (mkReadSteerableViewMapPixelF0D o1 0).evalAt fixtureSVM x y ≠
      (mkReadSteerableViewMapPixelF0D o2 0).evalAt fixtureSVM x y) := by
  refine ⟨rfl, rfl, fixtureSVM_evalAt ho x y, ?_⟩
  intro o1 o2 h1 h2 hne
  rw [fixtureSVM_evalAt h1 x y, fixtureSVM_evalAt h2 x y]
  intro hok
  apply hne
  exact Nat.cast_injective (Except.ok.inj hok)

/-- Witness for C5's amended statement at orientation 2, level 7,
point (5, 6). -/
theorem steerable_orientation_amended_witness :
    2 < 4 ∧
    ((mkReadSteerableViewMapPixelF0D 2 7).orientation = 2 ∧
     (mkReadSteerableViewMapPixelF0D 2 7).level = 7 ∧
     (mkReadSteerableViewMapPixelF0D 2 0).evalAt fixtureSVM 5 6 =
       .ok ((2 : Nat) : ℝ) ∧
     (∀ o1 o2 : Nat, o1 < 4 → o2 < 4 → o1 ≠ o2 →
       (mkReadSteerableViewMapPixelF0D o1 0).evalAt fixtureSVM 5 6 ≠
       (mkReadSteerableViewMapPixelF0D o2 0).evalAt fixtureSVM 5 6)) :=
  ⟨by decide, steerable_orientation_amended 2 7 5 6 (by decide)⟩

/-- `getName` of `DensityF0D`: returns the string "DensityF0D". -/
def DensityF0D.getName (_ : DensityF0D) : String :=
  "DensityF0D"

/-- `getName` of `LocalAverageDepthF0D`: returns the string
"LocalAverageDepthF0D". -/
def LocalAverageDepthF0D.getName (_ : LocalAverageDepthF0D) : String :=
  "LocalAverageDepthF0D"

/-- `getName` of `ReadMapPixelF0D`: returns the string "ReadMapPixelF0D". -/
def ReadMapPixelF0D.getName (_ : ReadMapPixelF0D) : String :=
  "ReadMapPixelF0D"

/-- `getName` of `ReadSteerableViewMapPixelF0D`: returns the string
"ReadSteerableViewMapPixelF0D". -/
def ReadSteerableViewMapPixelF0D.getName (_ : ReadSteerableViewMapPixelF0D) :
    String :=
  "ReadSteerableViewMapPixelF0D"

/-- `getName` of `ReadCompleteViewMapPixelF0D`: returns the string
"ReadCompleteViewMapPixelF0D". -/
def ReadCompleteViewMapPixelF0D.getName (_ : ReadCompleteViewMapPixelF0D) :
    String :=
  "ReadCompleteViewMapPixelF0D"

/-- `getName` of `GetViewMapGradientNormF0D`: the body returns the string
"GetViewMapGradientNormF0D" (its doc comment, in error, says
"GetOccludeeF0D"). -/
def GetViewMapGradientNormF0D.getName (_ : GetViewMapGradientNormF0D) :
    String :=
  "GetViewMapGradientNormF0D"

/-- C10: each functor's `getName` returns that class's own name, whatever
the construction parameters; in particular `GetViewMapGradientNormF0D`
returns "GetViewMapGradientNormF0D" and not the "GetOccludeeF0D" of its
documentation comment. -/
theorem getName_returns_class_name (sigma maskSize : ℝ) (nm : String)
    (o level : Nat) :
    (mkDensityF0D sigma).getName = "DensityF0D" ∧
    (mkLocalAverageDepthF0D maskSize).getName = "LocalAverageDepthF0D" ∧
    (mkReadMapPixelF0D nm level).getName = "ReadMapPixelF0D" ∧
    (mkReadSteerableViewMapPixelF0D o level).getName =
      "ReadSteerableViewMapPixelF0D" ∧
    (mkReadCompleteViewMapPixelF0D level).getName =
      "ReadCompleteViewMapPixelF0D" ∧
    (mkGetViewMapGradientNormF0D level).getName =
      "GetViewMapGradientNormF0D" ∧
    (mkGetViewMapGradientNormF0D level).getName ≠ "GetOccludeeF0D" :=
  ⟨rfl, rfl, rfl, rfl, rfl, rfl,
    (by decide : ("GetViewMapGradientNormF0D" : String) ≠ "GetOccludeeF0D")⟩

/-- The `UnaryFunction0D<T>` base class: a functor's construction-time
configuration together with the `result` slot that `operator()` writes on
each evaluation. -/
structure UnaryFunction0D (C α : Type) where
  config : C
  result : α

/-- `DensityF0D::operator()` as a state transformer on the base class:
writes the evaluation into `result`, touching nothing else. -/
noncomputable def DensityF0D.run (s : UnaryFunction0D DensityF0D ℝ)
    (img : Nat → Nat → ℝ) (w h : Nat) (x y : ℤ) :
    UnaryFunction0D DensityF0D ℝ :=
  { s with result := s.config.evalAt img w h x y }

/-- `LocalAverageDepthF0D::operator()` as a state transformer. -/
noncomputable def LocalAverageDepthF0D.run
    (s : UnaryFunction0D LocalAverageDepthF0D ℝ) (depth : Nat → Nat → ℝ)
    (w h : Nat) (x y : ℤ) : UnaryFunction0D LocalAverageDepthF0D ℝ :=
  { s with result := s.config.evalAt depth w h x y }

/-- `ReadMapPixelF0D::operator()` as a state transformer. -/
def ReadMapPixelF0D.run
    (s : UnaryFunction0D ReadMapPixelF0D (Except LookupError ℝ))
    (store : MapStore) (x y : Nat) :
    UnaryFunction0D ReadMapPixelF0D (Except LookupError ℝ) :=
  { s with result := s.config.evalAt store x y }

/-- `ReadSteerableViewMapPixelF0D::operator()` as a state transformer. -/
def ReadSteerableViewMapPixelF0D.run
    (s : UnaryFunction0D ReadSteerableViewMapPixelF0D (Except LookupError ℝ))
    (svm : SteerableStore) (x y : Nat) :
    UnaryFunction0D ReadSteerableViewMapPixelF0D (Except LookupError ℝ) :=
  { s with result := s.config.evalAt svm x y }

/-- `ReadCompleteViewMapPixelF0D::operator()` as a state transformer. -/
def ReadCompleteViewMapPixelF0D.run
    (s : UnaryFunction0D ReadCompleteViewMapPixelF0D (Except LookupError ℝ))
    (cvm : Pyramid) (x y : Nat) :
    UnaryFunction0D ReadCompleteViewMapPixelF0D (Except LookupError ℝ) :=
  { s with result := s.config.evalAt cvm x y }

/-- `GetViewMapGradientNormF0D::operator()` as a state transformer. -/
noncomputable def GetViewMapGradientNormF0D.run
    (s : UnaryFunction0D GetViewMapGradientNormF0D ℝ)
    (cvm : Nat → Nat → Nat → ℝ) (x y : Nat) :
    UnaryFunction0D GetViewMapGradientNormF0D ℝ :=
  { s with result := s.config.evalAt cvm x y }

/-- C9: for each of the six functors, evaluation is deterministic and free
of observable side effects: it leaves the construction-time configuration
unchanged, and evaluating again at the same point over the same data — from
whatever prior `result` state — produces the same result. -/
theorem functors_deterministic_and_effect_free
    (d : UnaryFunction0D DensityF0D ℝ) (img : Nat → Nat → ℝ)
    (ld : UnaryFunction0D LocalAverageDepthF0D ℝ) (depth : Nat → Nat → ℝ)
    (w h : Nat) (x y : ℤ)
    (rm : UnaryFunction0D ReadMapPixelF0D (Except LookupError ℝ))
    (store : MapStore)
    (rs : UnaryFunction0D ReadSteerableViewMapPixelF0D (Except LookupError ℝ))
    (svm : SteerableStore)
    (rc : UnaryFunction0D ReadCompleteViewMapPixelF0D (Except LookupError ℝ))
    (cvm : Pyramid)
    (g : UnaryFunction0D GetViewMapGradientNormF0D ℝ)
    (E : Nat → Nat → Nat → ℝ) (u v : Nat) :
    ((DensityF0D.run d img w h x y).config = d.config ∧
      (DensityF0D.run (DensityF0D.run d img w h x y) img w h x y).result =
        (DensityF0D.run d img w h x y).result) ∧
    ((LocalAverageDepthF0D.run ld depth w h x y).config = ld.config ∧
      (LocalAverageDepthF0D.run (LocalAverageDepthF0D.run ld depth w h x y)
          depth w h x y).result =
        (LocalAverageDepthF0D.run ld depth w h x y).result) ∧
    ((ReadMapPixelF0D.run rm store u v).config = rm.config ∧
      (ReadMapPixelF0D.run (ReadMapPixelF0D.run rm store u v)
          store u v).result =
        (ReadMapPixelF0D.run rm store u v).result) ∧
    ((ReadSteerableViewMapPixelF0D.run rs svm u v).config = rs.config ∧
      (ReadSteerableViewMapPixelF0D.run
          (ReadSteerableViewMapPixelF0D.run rs svm u v) svm u v).result =
        (ReadSteerableViewMapPixelF0D.run rs svm u v).result) ∧
    ((ReadCompleteViewMapPixelF0D.run rc cvm u v).config = rc.config ∧
      (ReadCompleteViewMapPixelF0D.run
          (ReadCompleteViewMapPixelF0D.run rc cvm u v) cvm u v).result =
        (ReadCompleteViewMapPixelF0D.run rc cvm u v).result) ∧
    ((GetViewMapGradientNormF0D.run g E u v).config = g.config ∧
      (GetViewMapGradientNormF0D.run
          (GetViewMapGradientNormF0D.run g E u v) E u v).result =
        (GetViewMapGradientNormF0D.run g E u v).result) :=
  ⟨⟨rfl, rfl⟩, ⟨rfl, rfl⟩, ⟨rfl, rfl⟩, ⟨rfl, rfl⟩, ⟨rfl, rfl⟩, ⟨rfl, rfl⟩⟩
